import Mathlib

/-!
Verification development for the kteq-teqbot scheduling and dispatch
subsystem (files `teqbot/teq.py`, `teqbot/log.py`, `teqbot/__main__.py`).
Python functions are shallowly embedded as executable Lean definitions;
file-backed state (`.teq.song`, `.teq.lyric`, `.teq.stat`, the swear-log
JSON files) is threaded explicitly as `Option String` or association
lists.
-/

namespace Teqbot

/-! ### Task flag constants (teq.py lines 61-68, __main__.py lines 6-13)

The source stores each flag as an 8-character bitstring and converts with
`int(s, 2)`; since `"\x7b0:b\x7d".format` and `int(_, 2)` are mutually
inverse on naturals, the flags are embedded directly as their numeric
values. -/

def NOW_PLAYING : Nat := 1
def STREAM_STATUS : Nat := 2
def CHECK_LYRICS : Nat := 4
def SWEAR_LOG : Nat := 8
def OPTION_5 : Nat := 16
def OPTION_6 : Nat := 32
def OPTION_7 : Nat := 64
def UPDATE_REPO : Nat := 128

def ROBOT_EMOJI : String := ":robot_face:"
def SKULL_EMOJI : String := ":skull:"
def MUSIC_EMOJI : String := ":musical_note:"

/-- Python truthiness of an `int`: nonzero. -/
def truthy (n : Nat) : Bool := n != 0

/-- A slack post: channel name, message text, icon emoji
(the arguments of `TeqBot.teq_message`). -/
structure Notification where
  channel : String
  message : String
  emoji : String
deriving Repr, DecidableEq

/-! ### Flag decoder (__main__.py, `command_handler`, SCHEDULER branch,
lines 61-78): starting from event string `'00000000'`, OR in each flag
whose short or long token occurs among the arguments. -/

def schedulerEvent (args : List String) : Nat :=
  let e := 0
  let e := if args.contains "--nowplaying" || args.contains "-n" then e ||| NOW_PLAYING else e
  let e := if args.contains "--status" || args.contains "-s" then e ||| STREAM_STATUS else e
  let e := if args.contains "--lyric" || args.contains "-l" then e ||| CHECK_LYRICS else e
  let e := if args.contains "--swear" || args.contains "-w" then e ||| SWEAR_LOG else e
  let e := if args.contains "--update" || args.contains "-u" then e ||| UPDATE_REPO else e
  e

/-- The task tokens `command_handler` recognizes. -/
def recognizedTokens : List String :=
  ["--nowplaying", "-n", "--status", "-s", "--lyric", "-l",
   "--swear", "-w", "--update", "-u"]

/-- The token set encoding a mask built from the five named task flags
(one documented token per flag; the spec round-trip property). -/
def encodeMask (m : Nat) : List String :=
  (if truthy (m &&& NOW_PLAYING) then ["--nowplaying"] else []) ++
  (if truthy (m &&& STREAM_STATUS) then ["--status"] else []) ++
  (if truthy (m &&& CHECK_LYRICS) then ["--lyric"] else []) ++
  (if truthy (m &&& SWEAR_LOG) then ["--swear"] else []) ++
  (if truthy (m &&& UPDATE_REPO) then ["--update"] else [])

/-! ### Durable state store primitives (teq.py lines 738-880)

Each marker file is an `Option String`: `none` when the file does not
exist, `some s` when it exists with content `s`. -/

/-- `TeqBot.get_last_played` (teq.py lines 752-764): the value the method
leaves in `self.lastSong` — file content when `.teq.song` exists,
`""` otherwise. -/
def get_last_played (songFile : Option String) : String :=
  match songFile with
  | some s => s
  | none => ""

/-- `TeqBot.get_last_lyric` (teq.py lines 782-793): file content when
`.teq.lyric` exists, `""` otherwise. -/
def get_last_lyric (lyricFile : Option String) : String :=
  match lyricFile with
  | some s => s
  | none => ""

/-- `TeqBot.check_stat_file` (teq.py lines 845-865): compare the content
of `.teq.stat` with `check`; `False` when the file does not exist. -/
def check_stat_file (statFile : Option String) (check : String) : Bool :=
  match statFile with
  | some stat => check == stat
  | none => false

/-- `TeqBot.delete_stat_file` (teq.py lines 867-880): remove `.teq.stat`
if present; afterwards the file does not exist. -/
def delete_stat_file (statFile : Option String) : Option String :=
  match statFile with
  | some _ => none
  | none => none

/-! ### Tick loop (teq.py, `TeqBot.scheduler`, lines 163-229) -/

inductive TaskId where
  | nowPlaying
  | streamStatus
  | checkLyrics
  | swearLog
  | updateRepo
deriving Repr, DecidableEq

/-- Scheduler loop state: the five per-task clocks and the `.teq.stat`
file. -/
structure SchedState where
  nowPlayingClock : Nat
  streamStatusClock : Nat
  checkLyricsClock : Nat
  swearLogClock : Nat
  updateRepoClock : Nat
  statFile : Option String
deriving Repr, DecidableEq

/-- One task slot inside a tick: fire iff the task is enabled and its
clock is divisible by its divisor; a firing clock is reset to 1
(teq.py lines 186-210). Returns (fired, clock before the end-of-tick
increment). -/
def fireClock (enabled : Bool) (d c : Nat) : Bool × Nat :=
  if enabled && c % d == 0 then (true, 1) else (false, c)

/-- One iteration of the `while True` scheduler loop (teq.py lines
185-226): evaluate the five firing rules, increment every clock by 1,
then poll `.teq.stat` for `"Done"`; on match delete the stat file and
break. Returns (new state, tasks fired this tick, loop break flag). -/
def schedTick (frequency event : Nat) (st : SchedState) :
    SchedState × List TaskId × Bool :=
  let np := fireClock (truthy (event &&& NOW_PLAYING)) (frequency * 2) st.nowPlayingClock
  let ss := fireClock (truthy (event &&& STREAM_STATUS)) (frequency * 20) st.streamStatusClock
  let cl := fireClock (truthy (event &&& CHECK_LYRICS)) frequency st.checkLyricsClock
  let sw := fireClock (truthy (event &&& SWEAR_LOG)) frequency st.swearLogClock
  let ur := fireClock (truthy (event &&& UPDATE_REPO)) (frequency * 1200) st.updateRepoClock
  let fired :=
    (if np.1 then [TaskId.nowPlaying] else []) ++
    (if ss.1 then [TaskId.streamStatus] else []) ++
    (if cl.1 then [TaskId.checkLyrics] else []) ++
    (if sw.1 then [TaskId.swearLog] else []) ++
    (if ur.1 then [TaskId.updateRepo] else [])
  let brk := check_stat_file st.statFile "Done"
  (⟨np.2 + 1, ss.2 + 1, cl.2 + 1, sw.2 + 1, ur.2 + 1,
    if brk then delete_stat_file st.statFile else st.statFile⟩,
   fired, brk)

/-- The scheduler state right after the initialisation lines 163-171:
all clocks 0, `.teq.stat` seeded `"Running"` (the `.teq.song` seed
`"None"` lives in `SongState`). -/
def schedInit : SchedState := ⟨0, 0, 0, 0, 0, some "Running"⟩

/-- Run the scheduler loop for at most `fuel` ticks. Returns the
per-tick firing trace, the final state, and whether the loop terminated
via the `"Done"` break. -/
def schedRun (frequency event : Nat) : Nat → SchedState → List (List TaskId) × SchedState × Bool
  | 0, st => ([], st, false)
  | fuel + 1, st =>
    let step := schedTick frequency event st
    if step.2.2 then ([step.2.1], step.1, true)
    else
      let rest := schedRun frequency event fuel step.1
      (step.2.1 :: rest.1, rest.2.1, rest.2.2)

/-- The isolated single-task counter recurrence of an enabled task with
divisor `d` (the clock value seen at the start of each tick, tick 0
first): clock 0 initially; each tick the clock is reset to 1 when it
fires, then incremented. -/
def clockTick (d c : Nat) : Nat := (if c % d == 0 then 1 else c) + 1

def clockIter (d : Nat) : Nat → Nat
  | 0 => 0
  | n + 1 => clockTick d (clockIter d n)

/-- Whether the enabled task with divisor `d` fires on tick `n`. -/
def firesAt (d n : Nat) : Bool := clockIter d n % d == 0

/-! ### SongChange task (teq.py lines 251-283, 795-824) -/

/-- State touched by the song-change task: the `.teq.song` file and the
in-memory `self.lastSong` field. -/
structure SongState where
  songFile : Option String
  lastSong : String
deriving Repr, DecidableEq

/-- `TeqBot.now_playing` (teq.py lines 902-912). -/
def now_playing (metadata : String) : String :=
  metadata.replace "__by__" "by"

/-- `TeqBot.check_last_played` (teq.py lines 795-824). `live` is the
track returned by `get_now_playing()`. When `.teq.song` is absent the
method returns `False` touching nothing; when its content is the
sentinel `"None"` or differs from `live`, both `self.lastSong` and the
file are overwritten with `live` and the method returns `True`. -/
def check_last_played (live : String) (st : SongState) : SongState × Bool :=
  match st.songFile with
  | some song =>
    if song == "None" then ({ songFile := some live, lastSong := live }, true)
    else if live != song then ({ songFile := some live, lastSong := live }, true)
    else (st, false)
  | none => (st, false)

/-- `TeqBot.task_now_playing` (teq.py lines 251-283). Returns the new
state, the slack notifications sent, and the metadata strings posted to
TuneIn. `get_last_played` first refreshes `self.lastSong` from the
file; on a new song the `#nowplaying` message and the TuneIn post both
use the refreshed `self.lastSong` (which `check_last_played` set to the
live track). -/
def task_now_playing (live : String) (st : SongState) :
    SongState × List Notification × List String :=
  let st1 : SongState := { st with lastSong := get_last_played st.songFile }
  let res := check_last_played live st1
  if res.2 then
    (res.1, [⟨"nowplaying", now_playing res.1.lastSong, MUSIC_EMOJI⟩], [res.1.lastSong])
  else
    (res.1, [], [])

/-! ### StreamHealth task (teq.py lines 285-334) -/

/-- The `for i in range(0, 5)` probe loop with break on first success
(teq.py lines 314-318): `probe i` is attempt `i` of
`stream.ping_stream`; `remaining` counts the attempts left after the
current one. After the loop, `online`/`msg` hold the last attempt
executed. -/
def pingAttempts (probe : Nat → Bool × String) (i : Nat) : Nat → Bool × String
  | 0 => probe i
  | remaining + 1 =>
    let r := probe i
    if r.1 then r else pingAttempts probe (i + 1) remaining

/-- `TeqBot.task_stream_status` (teq.py lines 285-334): probe up to 5
times; when online, notify `#engineering` "back online" only if
`.teq.stat` currently reads `"Stream Down"` (then reset it to
`"Running"`); when down, always notify the diagnostic and write
`"Stream Down"`. -/
def task_stream_status (probe : Nat → Bool × String) (statFile : Option String) :
    Option String × List Notification :=
  let r := pingAttempts probe 0 4
  if r.1 then
    if check_stat_file statFile "Stream Down" then
      (some "Running", [⟨"engineering", "The Stream is Back Online!", ROBOT_EMOJI⟩])
    else
      (statFile, [])
  else
    (some "Stream Down", [⟨"engineering", r.2, SKULL_EMOJI⟩])

/-- Fold `task_stream_status` over a sequence of probe functions,
collecting the stat file after each call and the notifications each
call emitted. -/
def runHealthSeq (statFile : Option String) :
    List (Nat → Bool × String) → List (Option String × List Notification)
  | [] => []
  | probe :: rest =>
    let r := task_stream_status probe statFile
    r :: runHealthSeq r.1 rest

/-! ### log.py: JSON records, comparison, validation, swear-log text -/

/-- A parsed JSON object with string fields, as an association list in
insertion order (Python dict keys are unique). -/
def JsonRec := List (String × String)

/-- `k in data` / `data[k]` on a dict: first binding for the key. -/
def lookupJ (j : List (String × String)) (k : String) : Option String :=
  (j.find? (fun p => p.1 == k)).map (fun p => p.2)

/-- All keys of a record are distinct (a Python dict invariant). -/
def keysNodup (j : List (String × String)) : Prop :=
  (j.map (fun p => p.1)).Nodup

instance decKeysNodup (j : List (String × String)) : Decidable (keysNodup j) :=
  List.nodupDecidable _

def LOG_SWEAR : Nat := 1

/-- `log.compare_json` (log.py lines 33-60): iterate the items of each
record, requiring every key to be present in the other record with an
equal value, in both directions. -/
def compare_json (json1 json2 : List (String × String)) : Bool :=
  json1.all (fun p =>
    match lookupJ json2 p.1 with
    | none => false
    | some v => p.2 == v) &&
  json2.all (fun p =>
    match lookupJ json1 p.1 with
    | none => false
    | some v => p.2 == v)

def swearFields : List String :=
  ["date", "time", "song title", "song artist", "song composer",
   "show name", "report"]

/-- The field loop of `log.validate` (log.py lines 113-116), embedded
with its actual control flow: the `return True` sits inside the `for`
body, so the first field decides and later fields are never examined;
an empty field list falls through to the final `return False`. -/
def validateFields (data : List (String × String)) : List String → Bool
  | [] => false
  | f :: _ => if (lookupJ data f).isSome then true else false

/-- `log.validate` (log.py lines 98-117). -/
def validate (data : List (String × String)) (log_type : Nat) : Bool :=
  if log_type == LOG_SWEAR then validateFields data swearFields else false

/-- `log.generate_swear_log` (log.py lines 119-143), with `data[field]`
access embedded as `Option`: `none` models the `KeyError` the Python
raises when `validate` passed but a later-used field is missing;
`some msg` is normal completion (msg is `""` when validation failed). -/
def generate_swear_log (data : List (String × String)) : Option String :=
  if validate data LOG_SWEAR then
    match lookupJ data "show name", lookupJ data "date", lookupJ data "time",
          lookupJ data "song title", lookupJ data "song artist",
          lookupJ data "song composer", lookupJ data "report" with
    | some sh, some dt, some tm, some ti, some ar, some co, some re =>
      some ("```\n" ++ "SWEAR LOG SUBMISSION FROM " ++ sh ++ ":\n\n" ++
            "Date         \t" ++ dt ++ "\n" ++
            "Time         \t" ++ tm ++ "\n" ++
            "Song     Name\t" ++ ti ++ "\n" ++
            "Song   Artist\t" ++ ar ++ "\n" ++
            "Song Composer\t" ++ co ++ "\n" ++
            "\n\n" ++
            "Report:    \t" ++ re ++ "```")
    | _, _, _, _, _, _, _ => none
  else
    some ""

/-- `TeqBot.task_swear_log` (teq.py lines 389-425). `data` is the
record read from `swear.json`, `lastSwear` the snapshot read from
`lastSwear.json`. When the two compare equal nothing happens; otherwise
the snapshot file is overwritten with `data` first, then the formatted
log is generated (this can raise `KeyError`, modelled `none`) and
posted to `#engineering` only when the message is non-empty (Python
string truthiness). Result: `none` = crash, `some (snapshot, posts)`
= normal completion with the final `lastSwear.json` content. -/
def task_swear_log (data lastSwear : List (String × String)) :
    Option (List (String × String) × List Notification) :=
  if compare_json data lastSwear then
    some (lastSwear, [])
  else
    match generate_swear_log data with
    | none => none
    | some msg =>
      some (data, if msg == "" then [] else [⟨"engineering", msg, SKULL_EMOJI⟩])

/-! ## Helper lemmas -/

theorem succ_mod (a m : Nat) (hm : 0 < m) :
    (a + 1) % m = if a % m = m - 1 then 0 else a % m + 1 := by
  have hlt := Nat.mod_lt a hm
  by_cases h : a % m = m - 1
  · have hdiv := Nat.div_add_mod a m
    have ha : a + 1 = m * (a / m + 1) := by
      rw [Nat.mul_succ]; omega
    rw [if_pos h, ha, Nat.mul_mod_right]
  · have hdiv := Nat.div_add_mod a m
    have hsm : a % m + 1 < m := by omega
    have ha : a + 1 = a % m + 1 + m * (a / m) := by omega
    rw [if_neg h, ha, Nat.add_mul_mod_self_left, Nat.mod_eq_of_lt hsm]

theorem clockIter_closed (d : Nat) (hd : 2 ≤ d) :
    ∀ n, 1 ≤ n → clockIter d n = (n - 1) % (d - 1) + 2 := by
  intro n
  induction n with
  | zero => intro h; exact absurd h (by omega)
  | succ k ih =>
    intro _
    rcases Nat.eq_zero_or_pos k with hk | hk
    · subst hk
      show clockTick d (clockIter d 0) = (1 - 1) % (d - 1) + 2
      simp [clockIter, clockTick]
    · have ihk := ih hk
      show clockTick d (clockIter d k) = (k + 1 - 1) % (d - 1) + 2
      rw [ihk]
      have hm : 0 < d - 1 := by omega
      have hrlt : (k - 1) % (d - 1) < d - 1 := Nat.mod_lt _ hm
      have hk1 : k + 1 - 1 = (k - 1) + 1 := by omega
      rw [hk1, succ_mod (k - 1) (d - 1) hm]
      by_cases hcase : (k - 1) % (d - 1) = d - 1 - 1
      · rw [if_pos hcase]
        unfold clockTick
        have hceq : (k - 1) % (d - 1) + 2 = d := by omega
        rw [hceq, Nat.mod_self]
        simp
      · rw [if_neg hcase]
        unfold clockTick
        have hlt2 : (k - 1) % (d - 1) + 2 < d := by omega
        rw [Nat.mod_eq_of_lt hlt2]
        have hne : ((k - 1) % (d - 1) + 2 == 0) = false := by
          simp only [beq_eq_false_iff_ne, ne_eq]
          omega
        rw [hne]
        simp

theorem firesAt_zero (d : Nat) : firesAt d 0 = true := by
  simp [firesAt, clockIter]

theorem firesAt_iff (d : Nat) (hd : 2 ≤ d) (n : Nat) (hn : 1 ≤ n) :
    firesAt d n = true ↔ n % (d - 1) = 0 := by
  unfold firesAt
  rw [clockIter_closed d hd n hn]
  have hm : 0 < d - 1 := by omega
  have hrlt : (n - 1) % (d - 1) < d - 1 := Nat.mod_lt _ hm
  have hn1 : n = (n - 1) + 1 := by omega
  have hsm := succ_mod (n - 1) (d - 1) hm
  rw [← hn1] at hsm
  constructor
  · intro h
    have hb : ((n - 1) % (d - 1) + 2) % d = 0 := by simpa using h
    have hceq : (n - 1) % (d - 1) + 2 = d := by
      by_cases hlt : (n - 1) % (d - 1) + 2 < d
      · rw [Nat.mod_eq_of_lt hlt] at hb; omega
      · omega
    have hcase : (n - 1) % (d - 1) = d - 1 - 1 := by omega
    rw [if_pos hcase] at hsm
    exact hsm
  · intro h
    by_cases hcase : (n - 1) % (d - 1) = d - 1 - 1
    · have hceq : (n - 1) % (d - 1) + 2 = d := by omega
      rw [hceq, Nat.mod_self]
      rfl
    · rw [if_neg hcase] at hsm
      exact ((by omega : False)).elim

/-- Membership of a task id in one of the singleton-or-empty firing
lists inside `schedTick`. -/
theorem mem_ite_singleton (x y : TaskId) (b : Bool) :
    x ∈ (if b then [y] else []) ↔ b = true ∧ x = y := by
  cases b <;> simp

theorem contains_eq_decide (l : List String) (x : String) :
    l.contains x = decide (x ∈ l) := by
  by_cases h : x ∈ l <;> simp [h, List.elem_iff]

/-- `schedulerEvent` only depends on which tokens occur among the
arguments, not on their order or multiplicity. -/
theorem schedulerEvent_congr (args args' : List String)
    (h : ∀ t : String, t ∈ args ↔ t ∈ args') :
    schedulerEvent args = schedulerEvent args' := by
  have hc : ∀ t : String, args.contains t = args'.contains t := by
    intro t
    rw [contains_eq_decide, contains_eq_decide]
    exact decide_eq_decide.mpr (h t)
  simp only [schedulerEvent, hc]

/-! ## Claims -/

/-- C1, counterexample. In the scheduler itself (frequency 5, only the
song-change task enabled, so divisor `5 * 2 = 10`), the task fires on
tick 0 and next on tick 9 — two successive firings 9 ticks apart, not
the 10 the claim requires; equivalently the single-counter recurrence
with divisor 10 fires at tick 9 but not at tick 10. -/
theorem scheduler_period_counterexample :
    (schedRun 5 NOW_PLAYING 10 schedInit).1
      = [[TaskId.nowPlaying], [], [], [], [], [], [], [], [], [TaskId.nowPlaying]]
    ∧ firesAt 10 0 = true
    ∧ ((List.range 8).all fun k => !firesAt 10 (k + 1)) = true
    ∧ firesAt 10 9 = true
    ∧ firesAt 10 10 = false := by
  decide

/-- C1, amended. For an enabled task the tick loop does fire the task
iff its counter is divisible by the divisor, resets the counter to 1
immediately after firing and increments it at the end of every tick
(shown for the song-change slot of `schedTick`, whose counter follows
`clockTick`); but the resulting firing period is `d - 1` ticks, not
`d`: starting from counter 0 the task fires on tick 0 and thereafter
exactly on the ticks divisible by `d - 1`. -/
theorem scheduler_period_amended :
    (∀ frequency event st, truthy (event &&& NOW_PLAYING) = true →
      (schedTick frequency event st).1.nowPlayingClock
          = clockTick (frequency * 2) st.nowPlayingClock
        ∧ ((TaskId.nowPlaying ∈ (schedTick frequency event st).2.1)
            ↔ st.nowPlayingClock % (frequency * 2) = 0))
    ∧ (∀ d, 2 ≤ d →
        firesAt d 0 = true ∧ ∀ n, 1 ≤ n → (firesAt d n = true ↔ n % (d - 1) = 0)) := by
  constructor
  · intro frequency event st h
    constructor
    · simp only [schedTick, fireClock, clockTick, h, Bool.true_and]
      by_cases hc : st.nowPlayingClock % (frequency * 2) == 0 <;> simp [hc]
    · simp only [schedTick, fireClock, h, Bool.true_and, List.mem_append,
        mem_ite_singleton]
      by_cases hc : st.nowPlayingClock % (frequency * 2) == 0 <;>
        simp [hc] <;> simpa using hc
  · intro d hd
    exact ⟨firesAt_zero d, fun n hn => firesAt_iff d hd n hn⟩

theorem scheduler_period_amended_witness :
    (schedTick 5 1 schedInit).1.nowPlayingClock = clockTick 10 schedInit.nowPlayingClock
    ∧ firesAt 10 0 = true :=
  ⟨(scheduler_period_amended.1 5 1 schedInit (by decide)).1,
   (scheduler_period_amended.2 10 (by decide)).1⟩

/-- C2, counterexample. `command_handler` with the scheduler command and
no task tokens at all produces the all-zero mask, not the documented
all-bits-set default `11111111` (255): the `'11111111'` default of
`TeqBot.scheduler` is unreachable through the flag decoder, which always
passes an explicitly built event string. -/
theorem flag_decoder_counterexample :
    schedulerEvent [] ≠ 255 ∧ schedulerEvent [] = 0 := by
  decide

/-- C2, amended. Both zero-token cases coincide: no tokens at all and
only-unrecognized tokens each yield the all-zero mask, under which the
scheduler loop starts but never fires a task. Unknown tokens are
ignored and duplicate tokens are idempotent: the decoded mask depends
only on the set of tokens present. -/
theorem flag_decoder_amended :
    schedulerEvent [] = 0
    ∧ (∀ args : List String, (∀ t ∈ args, t ∉ recognizedTokens) →
        schedulerEvent args = 0)
    ∧ (∀ args args' : List String, (∀ t : String, t ∈ args ↔ t ∈ args') →
        schedulerEvent args = schedulerEvent args')
    ∧ (∀ frequency st, (schedTick frequency 0 st).2.1 = []) := by
  refine ⟨by decide, ?_, schedulerEvent_congr, ?_⟩
  · intro args h
    have h1 : ("--nowplaying" : String) ∉ args := fun hm => h _ hm (by decide)
    have h2 : ("-n" : String) ∉ args := fun hm => h _ hm (by decide)
    have h3 : ("--status" : String) ∉ args := fun hm => h _ hm (by decide)
    have h4 : ("-s" : String) ∉ args := fun hm => h _ hm (by decide)
    have h5 : ("--lyric" : String) ∉ args := fun hm => h _ hm (by decide)
    have h6 : ("-l" : String) ∉ args := fun hm => h _ hm (by decide)
    have h7 : ("--swear" : String) ∉ args := fun hm => h _ hm (by decide)
    have h8 : ("-w" : String) ∉ args := fun hm => h _ hm (by decide)
    have h9 : ("--update" : String) ∉ args := fun hm => h _ hm (by decide)
    have h10 : ("-u" : String) ∉ args := fun hm => h _ hm (by decide)
    simp [schedulerEvent, h1, h2, h3, h4, h5, h6, h7, h8, h9, h10]
  · intro frequency st
    simp [schedTick, fireClock, truthy, NOW_PLAYING, STREAM_STATUS,
      CHECK_LYRICS, SWEAR_LOG, UPDATE_REPO]

theorem flag_decoder_amended_witness :
    schedulerEvent ["task", "--bogus"] = 0 ∧ schedulerEvent [] = 0 :=
  ⟨flag_decoder_amended.2.1 ["task", "--bogus"] (by decide),
   flag_decoder_amended.1⟩

/-- C9. Decoding the token set that encodes a mask composed of the five
named task flags (song-change, stream-health, lyric-check, swear-log,
self-update) reproduces the mask exactly. -/
theorem mask_roundtrip (bnp bss bcl bsw bur : Bool) :
    schedulerEvent (encodeMask
      ((cond bnp NOW_PLAYING 0) ||| (cond bss STREAM_STATUS 0)
        ||| (cond bcl CHECK_LYRICS 0) ||| (cond bsw SWEAR_LOG 0)
        ||| (cond bur UPDATE_REPO 0)))
      = (cond bnp NOW_PLAYING 0) ||| (cond bss STREAM_STATUS 0)
        ||| (cond bcl CHECK_LYRICS 0) ||| (cond bsw SWEAR_LOG 0)
        ||| (cond bur UPDATE_REPO 0) := by
  cases bnp <;> cases bss <;> cases bcl <;> cases bsw <;> cases bur <;> decide

theorem mask_roundtrip_witness :
    schedulerEvent (encodeMask
      ((cond true NOW_PLAYING 0) ||| (cond false STREAM_STATUS 0)
        ||| (cond true CHECK_LYRICS 0) ||| (cond false SWEAR_LOG 0)
        ||| (cond true UPDATE_REPO 0)))
      = (cond true NOW_PLAYING 0) ||| (cond false STREAM_STATUS 0)
        ||| (cond true CHECK_LYRICS 0) ||| (cond false SWEAR_LOG 0)
        ||| (cond true UPDATE_REPO 0) :=
  mask_roundtrip true false true false true

/-- C4. On the call sequence down, down, down, up, up (with no external
RunStatus reset between calls, starting from the loop seed `Running`):
each down call posts the diagnostic to `#engineering` and writes
`Stream Down` to the stat file; the first up call posts exactly one
"back online" message and writes `Running`; the steady second up call
posts nothing. -/
theorem stream_health_dedup (msg : String) :
    runHealthSeq (some "Running")
      [(fun _ => (false, msg)), (fun _ => (false, msg)), (fun _ => (false, msg)),
       (fun _ => (true, "")), (fun _ => (true, ""))]
    = [(some "Stream Down", [⟨"engineering", msg, SKULL_EMOJI⟩]),
       (some "Stream Down", [⟨"engineering", msg, SKULL_EMOJI⟩]),
       (some "Stream Down", [⟨"engineering", msg, SKULL_EMOJI⟩]),
       (some "Running", [⟨"engineering", "The Stream is Back Online!", ROBOT_EMOJI⟩]),
       (some "Running", [])] := rfl

theorem stream_health_dedup_witness :
    runHealthSeq (some "Running")
      [(fun _ => (false, "diag")), (fun _ => (false, "diag")), (fun _ => (false, "diag")),
       (fun _ => (true, "")), (fun _ => (true, ""))]
    = [(some "Stream Down", [⟨"engineering", "diag", SKULL_EMOJI⟩]),
       (some "Stream Down", [⟨"engineering", "diag", SKULL_EMOJI⟩]),
       (some "Stream Down", [⟨"engineering", "diag", SKULL_EMOJI⟩]),
       (some "Running", [⟨"engineering", "The Stream is Back Online!", ROBOT_EMOJI⟩]),
       (some "Running", [])] :=
  stream_health_dedup "diag"

/-- C5, counterexample. When the live track is itself the literal
string `"None"`, the marker keeps the sentinel value, so the task
notifies again on the next invocation although the track is unchanged —
refuting "never re-notifies on subsequent invocations while the track
stays unchanged" as quantified over every live-track value. -/
theorem song_first_run_counterexample :
    (task_now_playing "None" ⟨some "None", ""⟩).2.1.length = 1
    ∧ (task_now_playing "None" (task_now_playing "None" ⟨some "None", ""⟩).1).2.1.length = 1 := by
  decide

/-- C5, amended. With the marker at the sentinel `"None"`, the task
notifies exactly once on that invocation regardless of the live track
and overwrites the marker with the live track; provided the live track
is not itself the literal string `"None"`, every further invocation
with the track unchanged posts nothing and leaves the marker alone. -/
theorem song_first_run_amended (live : String) (st : SongState)
    (h : st.songFile = some "None") :
    ((task_now_playing live st).2.1.length = 1
      ∧ (task_now_playing live st).1.songFile = some live)
    ∧ (live ≠ "None" → ∀ st' : SongState, st'.songFile = some live →
        (task_now_playing live st').2.1 = []
          ∧ (task_now_playing live st').1.songFile = some live) := by
  constructor
  · simp [task_now_playing, check_last_played, h]
  · intro hlive st' h'
    have h1 : (live == "None") = false := by
      simp only [beq_eq_false_iff_ne, ne_eq]; exact hlive
    have h2 : (live != live) = false := by simp
    simp [task_now_playing, check_last_played, h', h1, h2]

theorem song_first_run_amended_witness :
    ((task_now_playing "Song A" ⟨some "None", ""⟩).2.1.length = 1
      ∧ (task_now_playing "Song A" ⟨some "None", ""⟩).1.songFile = some "Song A")
    ∧ (task_now_playing "Song A" ⟨some "Song A", "Song A"⟩).2.1 = [] :=
  ⟨(song_first_run_amended "Song A" ⟨some "None", ""⟩ rfl).1,
   ((song_first_run_amended "Song A" ⟨some "None", ""⟩ rfl).2
      (by decide) ⟨some "Song A", "Song A"⟩ rfl).1⟩

/-- C10. When the `.teq.song` marker file does not exist, the
song-change task is a complete external no-op whatever the live track
is: no slack notification, no TuneIn metadata post, and the marker file
is still absent afterwards (only the in-memory `lastSong` is reset to
the empty-string default). -/
theorem missing_marker_noop (live : String) (st : SongState)
    (h : st.songFile = none) :
    task_now_playing live st = (⟨none, ""⟩, [], []) := by
  simp [task_now_playing, check_last_played, get_last_played, h]

theorem missing_marker_noop_witness :
    task_now_playing "Song A" ⟨none, "old"⟩ = (⟨none, ""⟩, [], []) :=
  missing_marker_noop "Song A" ⟨none, "old"⟩ rfl

/-- C6. Once the stat file reads `Done`, the very next loop iteration
observes it: the loop runs exactly one further tick (whatever fuel it
had left), deletes the stat file — so the RunStatus marker no longer
exists — and terminates, firing nothing afterwards. -/
theorem shutdown_within_one_tick (frequency event fuel : Nat) (st : SchedState)
    (h : st.statFile = some "Done") :
    (schedRun frequency event (fuel + 1) st).1.length = 1
    ∧ (schedRun frequency event (fuel + 1) st).2.1.statFile = none
    ∧ (schedRun frequency event (fuel + 1) st).2.2 = true := by
  have hbrk : (schedTick frequency event st).2.2 = true := by
    simp [schedTick, check_stat_file, h]
  have hstat : (schedTick frequency event st).1.statFile = none := by
    simp [schedTick, check_stat_file, delete_stat_file, h]
  simp [schedRun, hbrk, hstat]

theorem shutdown_within_one_tick_witness :
    (schedRun 5 255 1 ⟨3, 3, 3, 3, 3, some "Done"⟩).1.length = 1
    ∧ (schedRun 5 255 1 ⟨3, 3, 3, 3, 3, some "Done"⟩).2.1.statFile = none
    ∧ (schedRun 5 255 1 ⟨3, 3, 3, 3, 3, some "Done"⟩).2.2 = true :=
  shutdown_within_one_tick 5 255 0 ⟨3, 3, 3, 3, 3, some "Done"⟩ rfl

/-- C7, counterexample. With the stat file absent, `check_stat_file`
returns `False` for every comparison — including against `"Running"` —
so a RunStatus comparison against `"Running"` does not succeed at first
read, contrary to the claim. -/
theorem store_runstatus_counterexample :
    check_stat_file none "Running" ≠ true := by
  decide

/-- C7, amended. A get on a missing key never fails: the song and lyric
markers default to the empty string; for RunStatus the read primitive
is a comparison, and on a missing stat file `check_stat_file` returns
`False` for every compared value (so the loop keeps running because the
`"Done"` comparison fails, but a comparison against `"Running"` fails
too). -/
theorem store_get_defaults :
    get_last_played none = "" ∧ get_last_lyric none = ""
    ∧ ∀ check : String, check_stat_file none check = false :=
  ⟨rfl, rfl, fun _ => rfl⟩

theorem store_get_defaults_witness :
    check_stat_file none "Done" = false :=
  store_get_defaults.2.2 "Done"

theorem lookupJ_of_mem (j : List (String × String)) (k v : String)
    (hnd : keysNodup j) (h : (k, v) ∈ j) : lookupJ j k = some v := by
  induction j with
  | nil => cases h
  | cons p t ih =>
    unfold keysNodup at hnd
    rw [List.map_cons, List.nodup_cons] at hnd
    rcases List.mem_cons.mp h with heq | hmem
    · subst heq
      simp [lookupJ, List.find?_cons]
    · have hk_t : k ∈ t.map (fun q => q.1) :=
        List.mem_map.mpr ⟨(k, v), hmem, rfl⟩
      have hne : (p.1 == k) = false := by
        simp only [beq_eq_false_iff_ne, ne_eq]
        intro he; exact hnd.1 (he ▸ hk_t)
      have ht := ih hnd.2 hmem
      simpa [lookupJ, List.find?_cons, hne] using ht

theorem mem_of_lookupJ (j : List (String × String)) (k v : String)
    (h : lookupJ j k = some v) : (k, v) ∈ j := by
  unfold lookupJ at h
  cases hf : j.find? (fun p => p.1 == k) with
  | none => rw [hf] at h; cases h
  | some p =>
    rw [hf] at h
    have hp := List.find?_some hf
    have hpm := List.mem_of_find?_eq_some hf
    have hk : p.1 = k := by simpa using hp
    have hv : p.2 = v := by simpa using h
    have hpe : p = (k, v) := by
      cases p; simp_all
    rwa [← hpe]

theorem lookup_eq_of_compare (j1 j2 : List (String × String))
    (h : compare_json j1 j2 = true) :
    ∀ k, lookupJ j1 k = lookupJ j2 k := by
  unfold compare_json at h
  rw [Bool.and_eq_true] at h
  obtain ⟨h1, h2⟩ := h
  rw [List.all_eq_true] at h1 h2
  intro k
  cases hl1 : lookupJ j1 k with
  | some v =>
    have hm := mem_of_lookupJ j1 k v hl1
    have hone := h1 (k, v) hm
    simp only at hone
    cases hl2 : lookupJ j2 k with
    | none => rw [hl2] at hone; cases hone
    | some w =>
      rw [hl2] at hone
      have : v = w := by simpa using hone
      rw [this]
  | none =>
    cases hl2 : lookupJ j2 k with
    | none => rfl
    | some w =>
      have hm := mem_of_lookupJ j2 k w hl2
      have hone := h2 (k, w) hm
      simp only at hone
      rw [hl1] at hone
      cases hone

theorem compare_of_lookup_eq (j1 j2 : List (String × String))
    (h1 : keysNodup j1) (h2 : keysNodup j2)
    (h : ∀ k, lookupJ j1 k = lookupJ j2 k) : compare_json j1 j2 = true := by
  unfold compare_json
  rw [Bool.and_eq_true]
  constructor <;> rw [List.all_eq_true]
  · intro p hp
    have hl : lookupJ j1 p.1 = some p.2 :=
      lookupJ_of_mem j1 p.1 p.2 h1 (by cases p; exact hp)
    have hv : lookupJ j2 p.1 = some p.2 := (h p.1) ▸ hl
    simp only [hv]
    simp
  · intro p hp
    have hl : lookupJ j2 p.1 = some p.2 :=
      lookupJ_of_mem j2 p.1 p.2 h2 (by cases p; exact hp)
    have hv : lookupJ j1 p.1 = some p.2 := (h p.1).symm ▸ hl
    simp only [hv]
    simp

/-- `task_swear_log` on records that compare unequal, when the message
generation succeeds with a non-empty message. -/
theorem task_swear_log_of_ne (data lastSwear : List (String × String))
    (msg : String) (hcf : compare_json data lastSwear = false)
    (hgen : generate_swear_log data = some msg) (hmsg : (msg == "") = false) :
    task_swear_log data lastSwear = some (data, [⟨"engineering", msg, SKULL_EMOJI⟩]) := by
  simp [task_swear_log, hcf, hgen, hmsg]

theorem append_ne_empty (s t : String) (ht : t.length ≠ 0) : s ++ t ≠ "" := by
  intro he
  have hlen := congrArg String.length he
  rw [String.length_append] at hlen
  have h0 : ("" : String).length = 0 := rfl
  rw [h0] at hlen
  omega

/-- C3. The claim that malformed records fail closed is right about the
intent but wrong about the code: the misindented `return True` inside
the field loop of `log.validate` makes it check only the first required
field, `"date"`. A record containing `"date"` but missing the other
required fields passes validation and `generate_swear_log` then hits a
`KeyError` (modelled `none`), crashing the swear-log task instead of
producing no notification; only a record missing `"date"` itself (third
conjunct) actually fails closed. -/
theorem swear_validate_bug :
    validate [("date", "2024-05-01")] LOG_SWEAR = true
    ∧ task_swear_log [("date", "2024-05-01")] [] = none
    ∧ task_swear_log [("time", "10:00")] [] = some ([("time", "10:00")], []) := by
  decide

/-- C8. Structurally equal records — equal as key/value maps, whatever
their key insertion order, compared in both directions — produce no
relay and no snapshot write; a new record that differs from the
snapshot at some key and carries all required swear-log fields is
relayed exactly once and overwrites the snapshot. -/
theorem swear_relay_equivalence (r1 r2 : List (String × String))
    (h1 : keysNodup r1) (h2 : keysNodup r2) :
    ((∀ k, lookupJ r1 k = lookupJ r2 k) →
      task_swear_log r1 r2 = some (r2, []) ∧ task_swear_log r2 r1 = some (r1, []))
    ∧ ((∃ k, lookupJ r1 k ≠ lookupJ r2 k) →
        (∀ f ∈ swearFields, (lookupJ r1 f).isSome) →
        ∃ msg, msg ≠ ""
          ∧ task_swear_log r1 r2 = some (r1, [⟨"engineering", msg, SKULL_EMOJI⟩])) := by
  constructor
  · intro h
    have hc12 : compare_json r1 r2 = true := compare_of_lookup_eq r1 r2 h1 h2 h
    have hc21 : compare_json r2 r1 = true :=
      compare_of_lookup_eq r2 r1 h2 h1 (fun k => (h k).symm)
    constructor <;> simp [task_swear_log, hc12, hc21]
  · intro hex hfields
    have hcf : compare_json r1 r2 = false := by
      cases hc : compare_json r1 r2
      · rfl
      · obtain ⟨k, hk⟩ := hex
        exact absurd (lookup_eq_of_compare r1 r2 hc k) hk
    obtain ⟨dv, hdt⟩ := Option.isSome_iff_exists.mp (hfields "date" (by decide))
    obtain ⟨tv, htm⟩ := Option.isSome_iff_exists.mp (hfields "time" (by decide))
    obtain ⟨ti, hti⟩ := Option.isSome_iff_exists.mp (hfields "song title" (by decide))
    obtain ⟨ar, har⟩ := Option.isSome_iff_exists.mp (hfields "song artist" (by decide))
    obtain ⟨co, hco⟩ := Option.isSome_iff_exists.mp (hfields "song composer" (by decide))
    obtain ⟨sh, hsh⟩ := Option.isSome_iff_exists.mp (hfields "show name" (by decide))
    obtain ⟨re, hre⟩ := Option.isSome_iff_exists.mp (hfields "report" (by decide))
    have hval : validate r1 LOG_SWEAR = true := by
      simp [validate, LOG_SWEAR, validateFields, swearFields, hdt]
    have hgen : generate_swear_log r1
        = some ("```\n" ++ "SWEAR LOG SUBMISSION FROM " ++ sh ++ ":\n\n" ++
            "Date         \t" ++ dv ++ "\n" ++
            "Time         \t" ++ tv ++ "\n" ++
            "Song     Name\t" ++ ti ++ "\n" ++
            "Song   Artist\t" ++ ar ++ "\n" ++
            "Song Composer\t" ++ co ++ "\n" ++
            "\n\n" ++ "Report:    \t" ++ re ++ "```") := by
      simp [generate_swear_log, hval, hsh, hdt, htm, hti, har, hco, hre]
    have hmsg : ("```\n" ++ "SWEAR LOG SUBMISSION FROM " ++ sh ++ ":\n\n" ++
            "Date         \t" ++ dv ++ "\n" ++
            "Time         \t" ++ tv ++ "\n" ++
            "Song     Name\t" ++ ti ++ "\n" ++
            "Song   Artist\t" ++ ar ++ "\n" ++
            "Song Composer\t" ++ co ++ "\n" ++
            "\n\n" ++ "Report:    \t" ++ re ++ "```") ≠ "" :=
      append_ne_empty _ "```" (by decide)
    have hbeq : (("```\n" ++ "SWEAR LOG SUBMISSION FROM " ++ sh ++ ":\n\n" ++
            "Date         \t" ++ dv ++ "\n" ++
            "Time         \t" ++ tv ++ "\n" ++
            "Song     Name\t" ++ ti ++ "\n" ++
            "Song   Artist\t" ++ ar ++ "\n" ++
            "Song Composer\t" ++ co ++ "\n" ++
            "\n\n" ++ "Report:    \t" ++ re ++ "```") == "") = false := by
      simp only [beq_eq_false_iff_ne, ne_eq]
      exact hmsg
    exact ⟨_, hmsg, task_swear_log_of_ne r1 r2 _ hcf hgen hbeq⟩

theorem swear_relay_equivalence_witness :
    ∃ msg, msg ≠ ""
      ∧ task_swear_log
          [("date", "d"), ("time", "t"), ("song title", "s"),
           ("song artist", "a"), ("song composer", "c"),
           ("show name", "n"), ("report", "r")] []
        = some ([("date", "d"), ("time", "t"), ("song title", "s"),
                 ("song artist", "a"), ("song composer", "c"),
                 ("show name", "n"), ("report", "r")],
                [⟨"engineering", msg, SKULL_EMOJI⟩]) :=
  (swear_relay_equivalence
      [("date", "d"), ("time", "t"), ("song title", "s"),
       ("song artist", "a"), ("song composer", "c"),
       ("show name", "n"), ("report", "r")] []
      (by decide) (by decide)).2
    ⟨"date", by decide⟩ (by decide)

end Teqbot
